import Mathlib

/-!
Shallow embedding of `src/intel/vulkan/anv_sparse.c` (sparse virtual-memory
binding for the Intel Vulkan driver).  Machine integers are modelled as `Nat`
(all quantities involved are non-negative in every reachable state of the C
code: offsets, sizes, extents).  External collaborators (the ISL tiling-layout
library, the kernel-mode backend, the VA allocator) are modelled as data
carried by the surface structure or as function parameters, exactly as the C
code consumes them.  C `assert`s compile out in release builds; they are
modelled as explicit hypotheses of the theorems that need them.
-/

/-- Embeds `VkOffset3D`.  The C type has signed fields, but sparse image binds only
ever use non-negative offsets inside the image, so `Nat` is faithful. -/
structure VkOffset3D where
  x : Nat
  y : Nat
  z : Nat
deriving DecidableEq, Repr

/-- Embeds `VkExtent3D`. -/
structure VkExtent3D where
  width : Nat
  height : Nat
  depth : Nat
deriving DecidableEq, Repr

/-- Embeds `struct isl_format_layout`: the fields read by this file — block footprint
in elements `(bw, bh, bd)` and bits per block element `bpb`. -/
structure IslFormatLayout where
  bw : Nat
  bh : Nat
  bd : Nat
  bpb : Nat
deriving DecidableEq, Repr

/-- The `enum isl_tiling` values this file distinguishes, plus representatives
of the remaining tiled classes. -/
inductive IslTiling where
  | linear
  | tile64
  | iclYs
  | sklYs
  | tile4
  | tileX
  | tileY0
deriving DecidableEq, Repr

/-- Embeds `struct isl_surf` together with the answers of the external ISL queries the
code performs on it: `isl_format_get_layout` (field `format`),
`isl_format_is_yuv` (field `yuv`), `isl_surf_get_tile_info` (field
`tile_logical_extent_el`, the `logical_extent_el` of the tile info), and
`isl_surf_get_image_offset_B_tile_sa` (field `image_offset_B_tile_sa`, mapping
`(mip, layer, z)` to `(offset_B, x_offset_sa, y_offset_sa)`).  ISL is outside
this source unit, so its outputs are free data of the model. -/
structure IslSurf where
  format : IslFormatLayout
  yuv : Bool
  tiling : IslTiling
  row_pitch_B : Nat
  size_B : Nat
  miptail_start_level : Nat
  tile_logical_extent_el : VkExtent3D
  image_offset_B_tile_sa : Nat → Nat → Nat → Nat × Nat × Nat

/-- Embeds `VkImageType`. -/
inductive VkImageType where
  | t1D
  | t2D
  | t3D
deriving DecidableEq, Repr

/-- Modelled from the spec: the binding granularity constant
`ANV_SPARSE_BLOCK_SIZE` is defined in `anv_private.h`, which is not part of
this source unit; the spec fixes it as the 64 KiB minimum bindable unit
(65536 bytes, matching the scenario values in the spec). -/
def ANV_SPARSE_BLOCK_SIZE : Nat := 65536

/-- Embeds `ALIGN_NPOT(x, a)` from the mesa utility headers (not under this unit):
round `x` up to the next multiple of `a`; in C it is
`DIV_ROUND_UP(x, a) * a = ((x + a - 1) / a) * a`. -/
def align_npot (x a : Nat) : Nat := (x + a - 1) / a * a

/-- Embeds `vk_offset3d_px_to_el`: pixel offset to element offset (integer division
by the block footprint). -/
def vk_offset3d_px_to_el (offset_px : VkOffset3D) (layout : IslFormatLayout) :
    VkOffset3D :=
  { x := offset_px.x / layout.bw
    y := offset_px.y / layout.bh
    z := offset_px.z / layout.bd }

/-- Embeds `vk_offset3d_el_to_px`. -/
def vk_offset3d_el_to_px (offset_el : VkOffset3D) (layout : IslFormatLayout) :
    VkOffset3D :=
  { x := offset_el.x * layout.bw
    y := offset_el.y * layout.bh
    z := offset_el.z * layout.bd }

/-- Embeds `vk_extent3d_px_to_el`. -/
def vk_extent3d_px_to_el (extent_px : VkExtent3D) (layout : IslFormatLayout) :
    VkExtent3D :=
  { width := extent_px.width / layout.bw
    height := extent_px.height / layout.bh
    depth := extent_px.depth / layout.bd }

/-- Embeds `vk_extent3d_el_to_px`. -/
def vk_extent3d_el_to_px (extent_el : VkExtent3D) (layout : IslFormatLayout) :
    VkExtent3D :=
  { width := extent_el.width * layout.bw
    height := extent_el.height * layout.bh
    depth := extent_el.depth * layout.bd }

/-- Embeds `isl_tiling_supports_standard_block_shapes`. -/
def isl_tiling_supports_standard_block_shapes (tiling : IslTiling) : Bool :=
  tiling = IslTiling.tile64 || tiling = IslTiling.iclYs ||
  tiling = IslTiling.sklYs

/-- Embeds `anv_sparse_get_standard_image_block_shape`.  The C function receives the
format and looks its layout up; the model receives the layout directly.  On
the `assert(false)` default branches the C function (release build) falls
through with the zero-initialised `block_shape`, which the model reproduces. -/
def anv_sparse_get_standard_image_block_shape (layout : IslFormatLayout)
    (image_type : VkImageType) (texel_size : Nat) : VkExtent3D :=
  let block_shape : VkExtent3D :=
    match image_type, texel_size with
    | VkImageType.t1D, _ => { width := 0, height := 0, depth := 0 }
    | VkImageType.t2D, 8 => { width := 256, height := 256, depth := 1 }
    | VkImageType.t2D, 16 => { width := 256, height := 128, depth := 1 }
    | VkImageType.t2D, 32 => { width := 128, height := 128, depth := 1 }
    | VkImageType.t2D, 64 => { width := 128, height := 64, depth := 1 }
    | VkImageType.t2D, 128 => { width := 64, height := 64, depth := 1 }
    | VkImageType.t2D, _ => { width := 0, height := 0, depth := 0 }
    | VkImageType.t3D, 8 => { width := 64, height := 32, depth := 32 }
    | VkImageType.t3D, 16 => { width := 32, height := 32, depth := 32 }
    | VkImageType.t3D, 32 => { width := 32, height := 32, depth := 16 }
    | VkImageType.t3D, 64 => { width := 32, height := 16, depth := 16 }
    | VkImageType.t3D, 128 => { width := 16, height := 16, depth := 16 }
    | VkImageType.t3D, _ => { width := 0, height := 0, depth := 0 }
  vk_extent3d_el_to_px block_shape layout

/-- Embeds `anv_sparse_calc_block_shape`.  `pdevice` is unused by the C function
body, so it is not a parameter of the model. -/
def anv_sparse_calc_block_shape (surf : IslSurf) : VkExtent3D :=
  let layout := surf.format
  let Bpb := layout.bpb / 8
  let block_shape_el : VkExtent3D := surf.tile_logical_extent_el
  let block_shape_px := vk_extent3d_el_to_px block_shape_el layout
  if surf.tiling = IslTiling.linear then
    let elements_per_row := surf.row_pitch_B / (block_shape_el.width * Bpb)
    let rows_per_tile := ANV_SPARSE_BLOCK_SIZE / (elements_per_row * Bpb)
    { width := elements_per_row * layout.bw
      height := rows_per_tile * layout.bh
      depth := layout.bd }
  else
    block_shape_px

/-- Embeds `VkSparseImageFormatProperties`; the `flags` bitmask is split into its two
bits (`VK_SPARSE_IMAGE_FORMAT_NONSTANDARD_BLOCK_SIZE_BIT` and
`VK_SPARSE_IMAGE_FORMAT_SINGLE_MIPTAIL_BIT`). -/
structure VkSparseImageFormatProperties where
  aspectMask : Nat
  imageGranularity : VkExtent3D
  flagNonstandardBlockSize : Bool
  flagSingleMiptail : Bool
deriving DecidableEq, Repr

/-- Embeds `anv_sparse_calc_image_format_properties`.  `pdevice` contributes only
`pdevice->info.verx10`, passed here as `verx10`. -/
def anv_sparse_calc_image_format_properties (verx10 : Nat) (aspect : Nat)
    (vk_image_type : VkImageType) (surf : IslSurf) :
    VkSparseImageFormatProperties :=
  let isl_layout := surf.format
  let bpb := isl_layout.bpb
  let Bpb := bpb / 8
  let granularity := anv_sparse_calc_block_shape surf
  let std_check : Bool × Bool :=
    if vk_image_type ≠ VkImageType.t1D then
      let std_shape :=
        anv_sparse_get_standard_image_block_shape isl_layout vk_image_type bpb
      let is_known_nonstandard_format : Bool :=
        125 ≤ verx10 && surf.yuv
      let is_standard : Bool :=
        granularity.width = std_shape.width &&
        granularity.height = std_shape.height &&
        granularity.depth = std_shape.depth
      (is_standard, is_known_nonstandard_format)
    else
      (false, false)
  let is_standard := std_check.1
  let is_known_nonstandard_format := std_check.2
  let block_size := granularity.width * granularity.height *
                    granularity.depth * Bpb
  let wrong_block_size : Bool := block_size ≠ ANV_SPARSE_BLOCK_SIZE
  { aspectMask := aspect
    imageGranularity := granularity
    flagNonstandardBlockSize := !(is_standard || is_known_nonstandard_format)
    flagSingleMiptail := wrong_block_size }

/-- The fields of `struct anv_image` read by `anv_sparse_calc_miptail_properties`
for one plane: the plane's primary surface, the plane's binding offset
(`primary_surface.memory_range.offset`), and `vk.array_layers` /
`vk.mip_levels`.  Aspect-to-plane resolution happens outside the modelled
arithmetic, so the model works directly on the selected plane. -/
structure AnvImagePlane where
  surf : IslSurf
  binding_plane_offset : Nat
  array_layers : Nat
  mip_levels : Nat

/-- The four out-parameters of `anv_sparse_calc_miptail_properties`. -/
structure MiptailProps where
  imageMipTailFirstLod : Nat
  imageMipTailSize : Nat
  imageMipTailOffset : Nat
  imageMipTailStride : Nat
deriving DecidableEq, Repr

/-- Embeds `anv_sparse_calc_miptail_properties`.  The C `goto` targets become the
local values `out_everything_is_miptail` and `out_no_miptail`; control flow is
reproduced branch for branch. -/
def anv_sparse_calc_miptail_properties (image : AnvImagePlane) : MiptailProps :=
  let surf := image.surf
  let binding_plane_offset := image.binding_plane_offset
  let isl_layout := surf.format
  let Bpb := isl_layout.bpb / 8
  let tile_size := surf.tile_logical_extent_el.width * Bpb *
                   surf.tile_logical_extent_el.height *
                   surf.tile_logical_extent_el.depth
  let out_everything_is_miptail : MiptailProps :=
    { imageMipTailFirstLod := 0
      imageMipTailSize := surf.size_B
      imageMipTailOffset := binding_plane_offset
      imageMipTailStride := 0 }
  let out_no_miptail : MiptailProps :=
    { imageMipTailFirstLod := image.mip_levels
      imageMipTailSize := 0
      imageMipTailOffset := 0
      imageMipTailStride := 0 }
  let after_layer1 : Nat → MiptailProps := fun layer1_offset =>
    if ¬ isl_tiling_supports_standard_block_shapes surf.tiling then
      out_everything_is_miptail
    else
      let miptail_first_level := surf.miptail_start_level
      if image.mip_levels ≤ miptail_first_level then
        out_no_miptail
      else
        let miptail_offset := (surf.image_offset_B_tile_sa
                                 miptail_first_level 0 0).1
        { imageMipTailFirstLod := miptail_first_level
          imageMipTailSize := tile_size
          imageMipTailOffset := binding_plane_offset + miptail_offset
          imageMipTailStride := layer1_offset }
  if tile_size ≠ ANV_SPARSE_BLOCK_SIZE then
    out_everything_is_miptail
  else if image.array_layers = 1 then
    after_layer1 surf.size_B
  else
    let off := surf.image_offset_B_tile_sa 0 1 0
    let layer1_offset := off.1
    let x_off := off.2.1
    let y_off := off.2.2
    if x_off ≠ 0 ∨ y_off ≠ 0 then
      out_everything_is_miptail
    else
      after_layer1 layer1_offset

/-- Embeds `struct anv_bo`: the bind translator only reads its `size`; `ident`
preserves object identity. -/
structure AnvBo where
  ident : Nat
  size : Nat
deriving DecidableEq, Repr

/-- Embeds `struct VkSparseMemoryBind`.  `memory == VK_NULL_HANDLE` is `none`;
otherwise `some bo` is the `anv_device_memory_from_handle(memory)->bo` the
translator dereferences. -/
structure VkSparseMemoryBind where
  resourceOffset : Nat
  size : Nat
  memory : Option AnvBo
  memoryOffset : Nat
  flags : Nat
deriving DecidableEq, Repr

/-- Embeds `enum anv_vm_bind_op` (`ANV_VM_BIND` / `ANV_VM_UNBIND`). -/
inductive AnvVmOp where
  | bind
  | unbind
deriving DecidableEq, Repr

/-- Embeds `struct anv_vm_bind`: one operation handed to the kernel backend. -/
structure AnvVmBind where
  bo : Option AnvBo
  address : Nat
  bo_offset : Nat
  size : Nat
  op : AnvVmOp
deriving DecidableEq, Repr

/-- Embeds `struct anv_sparse_binding_data`: the resource's reserved VA range. -/
structure AnvSparseBindingData where
  address : Nat
  size : Nat
deriving DecidableEq, Repr

/-- Embeds `vk_bind_to_anv_vm_bind` (the value it returns; its `assert`s are the
separate predicate `vk_bind_to_anv_vm_bind_asserts`). -/
def vk_bind_to_anv_vm_bind (sparse : AnvSparseBindingData)
    (vk_bind : VkSparseMemoryBind) : AnvVmBind :=
  let anv_bind : AnvVmBind :=
    { bo := none
      address := sparse.address + vk_bind.resourceOffset
      bo_offset := 0
      size := vk_bind.size
      op := AnvVmOp.bind }
  match vk_bind.memory with
  | none => anv_bind
  | some mem =>
      { anv_bind with bo := some mem, bo_offset := vk_bind.memoryOffset }

/-- The `assert` conditions inside `vk_bind_to_anv_vm_bind` (checked only in
debug builds of the C code): `vk_bind->size != 0`,
`resourceOffset + size <= sparse->size`, and when memory is non-null
`memoryOffset + size <= bo->size`. -/
def vk_bind_to_anv_vm_bind_asserts (sparse : AnvSparseBindingData)
    (vk_bind : VkSparseMemoryBind) : Bool :=
  vk_bind.size ≠ 0 &&
  vk_bind.resourceOffset + vk_bind.size ≤ sparse.size &&
  (match vk_bind.memory with
   | none => true
   | some mem => vk_bind.memoryOffset + vk_bind.size ≤ mem.size)

/-- The `VkResult` values this file produces. -/
inductive VkResult where
  | success
  | errorOutOfDeviceMemory
  | errorUnknown
  | errorFormatNotSupported
  | errorFeatureNotPresent
deriving DecidableEq, Repr

/-- The iteration values of the C loop
`for (v = start; v < stop; v += step)` for a positive `step`
(the C code only runs these loops with positive block-shape steps; a zero
step would make the C loop diverge and yields `[]` here). -/
def iterCount (start stop step : Nat) : Nat :=
  if step = 0 then 0 else (stop - start + step - 1) / step

/-- The list of loop-counter values visited by
`for (v = start; v < stop; v += step)`. -/
def iterUp (start stop step : Nat) : List Nat :=
  (List.range (iterCount start stop step)).map (fun i => start + i * step)

/-- Embeds `struct VkSparseImageMemoryBind`: the fields `anv_sparse_bind_image_memory`
reads (`subresource.mipLevel`, `subresource.arrayLayer`, `offset`, `extent`,
`memory`, `memoryOffset`, `flags`). -/
structure VkSparseImageMemoryBind where
  mipLevel : Nat
  arrayLayer : Nat
  offset : VkOffset3D
  extent : VkExtent3D
  memory : Option AnvBo
  memoryOffset : Nat
  flags : Nat
deriving DecidableEq, Repr

/-- The inputs of `anv_sparse_bind_image_memory` for the selected plane: the
plane's surface, the plane's binding offset
(`primary_surface.memory_range.offset`), and the client's bind request. -/
structure ImageBindCtx where
  surf : IslSurf
  binding_plane_offset : Nat
  bind : VkSparseImageMemoryBind

namespace ImageBindCtx

/-- Local `layout` of `anv_sparse_bind_image_memory`. -/
def layout (ctx : ImageBindCtx) : IslFormatLayout := ctx.surf.format

/-- Local `block_shape_px`. -/
def block_shape_px (ctx : ImageBindCtx) : VkExtent3D :=
  anv_sparse_calc_block_shape ctx.surf

/-- Local `block_shape_el`. -/
def block_shape_el (ctx : ImageBindCtx) : VkExtent3D :=
  vk_extent3d_px_to_el ctx.block_shape_px ctx.layout

/-- Local `bind_offset_el`. -/
def bind_offset_el (ctx : ImageBindCtx) : VkOffset3D :=
  vk_offset3d_px_to_el ctx.bind.offset ctx.layout

/-- Local `bind_extent_px` (the request's extent aligned up to the block
shape on every axis). -/
def bind_extent_px (ctx : ImageBindCtx) : VkExtent3D :=
  { width := align_npot ctx.bind.extent.width ctx.block_shape_px.width
    height := align_npot ctx.bind.extent.height ctx.block_shape_px.height
    depth := align_npot ctx.bind.extent.depth ctx.block_shape_px.depth }

/-- Local `bind_extent_el`. -/
def bind_extent_el (ctx : ImageBindCtx) : VkExtent3D :=
  vk_extent3d_px_to_el ctx.bind_extent_px ctx.layout

/-- Local `block_size_B`. -/
def block_size_B (ctx : ImageBindCtx) : Nat :=
  ctx.block_shape_el.width * (ctx.layout.bpb / 8) *
  ctx.block_shape_el.height * ctx.block_shape_el.depth

/-- Local `blocks_per_line`. -/
def blocks_per_line (ctx : ImageBindCtx) : Nat :=
  ctx.surf.row_pitch_B / (ctx.layout.bpb / 8) / ctx.block_shape_el.width

/-- Local `line_bind_size_in_blocks`. -/
def line_bind_size_in_blocks (ctx : ImageBindCtx) : Nat :=
  ctx.bind_extent_el.width / ctx.block_shape_el.width

/-- Local `line_bind_size`. -/
def line_bind_size (ctx : ImageBindCtx) : Nat :=
  ctx.line_bind_size_in_blocks * ctx.block_size_B

/-- The values taken by the inner loop counter `y`. -/
def ys (ctx : ImageBindCtx) : List Nat :=
  iterUp ctx.bind_offset_el.y
         (ctx.bind_offset_el.y + ctx.bind_extent_el.height)
         ctx.block_shape_el.height

/-- The values taken by the outer loop counter `z`. -/
def zs (ctx : ImageBindCtx) : List Nat :=
  iterUp ctx.bind_offset_el.z
         (ctx.bind_offset_el.z + ctx.bind_extent_el.depth)
         ctx.block_shape_el.depth

end ImageBindCtx

/-- The body of the inner (`y`) loop of `anv_sparse_bind_image_memory`: the
`opaque_bind` values built for one depth slice, threading the accumulating
`memory_offset`. -/
def imageBindRows (ctx : ImageBindCtx) (subresource_offset_B : Nat) :
    Nat → List Nat → List VkSparseMemoryBind
  | _, [] => []
  | memory_offset, y :: rest =>
      let line_block_offset := y / ctx.block_shape_el.height *
                               ctx.blocks_per_line
      let line_start_B := subresource_offset_B +
                          line_block_offset * ctx.block_size_B
      let bind_offset_B := line_start_B +
                           ctx.bind_offset_el.x / ctx.block_shape_el.width *
                           ctx.block_size_B
      let opaque_bind : VkSparseMemoryBind :=
        { resourceOffset := ctx.binding_plane_offset + bind_offset_B
          size := ctx.line_bind_size
          memory := ctx.bind.memory
          memoryOffset := memory_offset
          flags := ctx.bind.flags }
      opaque_bind ::
        imageBindRows ctx subresource_offset_B
          (memory_offset + ctx.line_bind_size) rest

/-- The outer (`z`) loop of `anv_sparse_bind_image_memory`: for each depth
slice, look up the subresource base offset and emit one `opaque_bind` per row;
`memory_offset` keeps accumulating across slices (each row advances it by
`line_bind_size`, so a whole slice advances it by `ys.length * line_bind_size`). -/
def imageBindSlices (ctx : ImageBindCtx) :
    Nat → List Nat → List VkSparseMemoryBind
  | _, [] => []
  | memory_offset, z :: rest =>
      let subresource_offset_B :=
        (ctx.surf.image_offset_B_tile_sa ctx.bind.mipLevel
           ctx.bind.arrayLayer z).1
      imageBindRows ctx subresource_offset_B memory_offset ctx.ys ++
        imageBindSlices ctx
          (memory_offset + ctx.ys.length * ctx.line_bind_size) rest

/-- All `opaque_bind` values `anv_sparse_bind_image_memory` builds, in
emission order. -/
def anv_sparse_bind_image_memory_opaque_binds (ctx : ImageBindCtx) :
    List VkSparseMemoryBind :=
  imageBindSlices ctx ctx.bind.memoryOffset ctx.zs

/-- The backend operations `anv_sparse_bind_image_memory` hands to
`device->kmd_backend->vm_bind`, in emission order (each `opaque_bind` goes
through `vk_bind_to_anv_vm_bind`). -/
def anv_sparse_bind_image_memory_ops (sparse_data : AnvSparseBindingData)
    (ctx : ImageBindCtx) : List AnvVmBind :=
  (anv_sparse_bind_image_memory_opaque_binds ctx).map
    (vk_bind_to_anv_vm_bind sparse_data)

/-- Sequential submission of operations to the kernel backend
(`device->kmd_backend->vm_bind`, one operation per call as in the C loop):
returns the operations actually submitted, in order, and whether every call
succeeded.  Submission stops right after the first failing call. -/
def vmBindAll (backend : AnvVmBind → Bool) :
    List AnvVmBind → List AnvVmBind × Bool
  | [] => ([], true)
  | b :: rest =>
      if backend b then
        let r := vmBindAll backend rest
        (b :: r.1, r.2)
      else
        ([b], false)

/-- Embeds `anv_sparse_bind_image_memory`: submit every emitted operation to the
backend in order; on the first backend failure return
`VK_ERROR_OUT_OF_DEVICE_MEMORY` immediately.  The result records the
operations actually submitted (the externally observable effect) and the
returned `VkResult`. -/
def anv_sparse_bind_image_memory (backend : AnvVmBind → Bool)
    (sparse_data : AnvSparseBindingData) (ctx : ImageBindCtx) :
    List AnvVmBind × VkResult :=
  let r := vmBindAll backend (anv_sparse_bind_image_memory_ops sparse_data ctx)
  (r.1, if r.2 then VkResult.success else VkResult.errorOutOfDeviceMemory)

/-- Embeds `anv_sparse_bind_resource_memory` (the opaque path): translate the one
request and submit it. -/
def anv_sparse_bind_resource_memory (backend : AnvVmBind → Bool)
    (sparse : AnvSparseBindingData) (vk_bind : VkSparseMemoryBind) :
    List AnvVmBind × VkResult :=
  let bind := vk_bind_to_anv_vm_bind sparse vk_bind
  if backend bind then ([bind], VkResult.success)
  else ([bind], VkResult.errorOutOfDeviceMemory)

/-- Embeds `anv_free_sparse_bindings`: the returned `VkResult`, the backend calls
issued, the `anv_vma_free` calls issued (as `(address, size)` pairs), and the
final `sparse` data (the C function never writes through the pointer, so it is
returned unchanged on every path). -/
def anv_free_sparse_bindings (backend : AnvVmBind → Bool)
    (sparse : AnvSparseBindingData) :
    VkResult × List AnvVmBind × List (Nat × Nat) × AnvSparseBindingData :=
  if sparse.address = 0 then
    (VkResult.success, [], [], sparse)
  else
    let unbind : AnvVmBind :=
      { bo := none
        address := sparse.address
        bo_offset := 0
        size := sparse.size
        op := AnvVmOp.unbind }
    if backend unbind then
      (VkResult.success, [unbind], [(sparse.address, sparse.size)], sparse)
    else
      (VkResult.errorUnknown, [unbind], [], sparse)

/-- Embeds `VkImageTiling`. -/
inductive VkImageTiling where
  | optimal
  | linear
  | drmFormatModifier
deriving DecidableEq, Repr

/-- One plane of a `struct anv_format`: whether its `isl_format` is
`ISL_FORMAT_UNSUPPORTED`, and the `bpb` of that format's layout. -/
structure AnvPlaneFormat where
  isl_format_supported : Bool
  bpb : Nat
deriving DecidableEq, Repr

/-- Embeds `struct anv_format`: its planes (`n_planes` entries). -/
structure AnvFormat where
  planes : List AnvPlaneFormat
deriving DecidableEq, Repr

/-- The facts about a `VkFormat` the validator queries from outside this
unit: `vk_format_aspects` restricted to the depth/stencil bits, and
`anv_get_format` (`none` when the driver has no translation). -/
structure VkFormatInfo where
  hasDepth : Bool
  hasStencil : Bool
  anv_format : Option AnvFormat

/-- The per-plane loop at the end of `anv_sparse_image_check_support`:
reject `ISL_FORMAT_UNSUPPORTED` planes and planes whose `bpb` is not one of
8, 16, 32, 64, 128. -/
def anv_sparse_check_format_planes : List AnvPlaneFormat → VkResult
  | [] => VkResult.success
  | p :: rest =>
      if p.isl_format_supported = false then
        VkResult.errorFormatNotSupported
      else if p.bpb ≠ 8 ∧ p.bpb ≠ 16 ∧ p.bpb ≠ 32 ∧ p.bpb ≠ 64 ∧
              p.bpb ≠ 128 then
        VkResult.errorFormatNotSupported
      else
        anv_sparse_check_format_planes rest

/-- Embeds `anv_sparse_image_check_support`.  `pdevice` contributes
`pdevice->info.verx10`; the image-create flags contribute only the residency
bit (the binding bit is asserted by the C code and is a precondition of every
call); `samples` is the sample count (`VK_SAMPLE_COUNT_1_BIT` is 1). -/
def anv_sparse_image_check_support (verx10 : Nat)
    (flag_sparse_residency : Bool) (tiling : VkImageTiling) (samples : Nat)
    (type : VkImageType) (fmt : VkFormatInfo) : VkResult :=
  if flag_sparse_residency = false then
    VkResult.success
  else if tiling = VkImageTiling.linear then
    VkResult.errorFormatNotSupported
  else if samples ≠ 1 then
    VkResult.errorFeatureNotPresent
  else if (fmt.hasDepth || fmt.hasStencil) = true ∧
          (if 125 ≤ verx10 then type = VkImageType.t3D
           else type ≠ VkImageType.t2D) then
    VkResult.errorFormatNotSupported
  else
    match fmt.anv_format with
    | none => VkResult.errorFormatNotSupported
    | some af => anv_sparse_check_format_planes af.planes

/-- The spec's notion of "the unbind of the same request" for the opaque
path: in Vulkan an unbind is the same `VkSparseMemoryBind` with
`memory = VK_NULL_HANDLE`.  Written from the spec's words for the
idempotence/reversal claim. -/
def unbindRequestOpaque (b : VkSparseMemoryBind) : VkSparseMemoryBind :=
  { b with memory := none }

/-- The spec's notion of "the unbind of the same request" for the image
path: the same `VkSparseImageMemoryBind` with `memory = VK_NULL_HANDLE`. -/
def unbindRequestImage (b : VkSparseImageMemoryBind) :
    VkSparseImageMemoryBind :=
  { b with memory := none }

/-- An image-bind context with the request's memory nulled (the image-path
unbind of the same request). -/
def unbindCtx (ctx : ImageBindCtx) : ImageBindCtx :=
  { ctx with bind := unbindRequestImage ctx.bind }

/-- Example Tile64 surface: 8-bit texels (`Bpb = 1`), `1x1x1` block
footprint, `256x256x1` tile (65536 bytes), two tiles per row. -/
def exSurfTile64 : IslSurf :=
  { format := { bw := 1, bh := 1, bd := 1, bpb := 8 }
    yuv := false
    tiling := IslTiling.tile64
    row_pitch_B := 512
    size_B := 262144
    miptail_start_level := 1
    tile_logical_extent_el := { width := 256, height := 256, depth := 1 }
    image_offset_B_tile_sa := fun _ _ _ => (0, 0, 0) }

/-- Example backing memory object. -/
def exBo : AnvBo := { ident := 1, size := 1048576 }

/-- Example reserved VA range (64 KiB aligned base). -/
def exSparse : AnvSparseBindingData := { address := 1048576, size := 1048576 }

/-- Example image bind request: a 512x512x1 rectangle at the origin of mip
level 0 of `exSurfTile64` (two block rows, one depth slice). -/
def exImageBind : VkSparseImageMemoryBind :=
  { mipLevel := 0
    arrayLayer := 0
    offset := { x := 0, y := 0, z := 0 }
    extent := { width := 512, height := 512, depth := 1 }
    memory := some exBo
    memoryOffset := 0
    flags := 0 }

/-- Example image-bind context. -/
def exCtx : ImageBindCtx :=
  { surf := exSurfTile64, binding_plane_offset := 0, bind := exImageBind }

/-- First backend operation emitted for `exCtx`. -/
def exOp0 : AnvVmBind :=
  { bo := some exBo, address := 1048576, bo_offset := 0, size := 131072
    op := AnvVmOp.bind }

/-- Second backend operation emitted for `exCtx`. -/
def exOp1 : AnvVmBind :=
  { bo := some exBo, address := 1179648, bo_offset := 131072, size := 131072
    op := AnvVmOp.bind }

/-- Opaque request whose size (4096) is smaller than the binding granularity
constant yet passes every assertion of the translator. -/
def smallOpaqueReq : VkSparseMemoryBind :=
  { resourceOffset := 0, size := 4096, memory := some { ident := 2, size := 8192 }
    memoryOffset := 0, flags := 0 }

/-- Granularity-aligned opaque request. -/
def alignedOpaqueReq : VkSparseMemoryBind :=
  { resourceOffset := 65536, size := 65536, memory := some { ident := 3, size := 131072 }
    memoryOffset := 65536, flags := 0 }

/-- Example single-layer image plane on `exSurfTile64` for the miptail
calculator: one mip level, miptail start level 1. -/
def exMiptailImage : AnvImagePlane :=
  { surf := exSurfTile64
    binding_plane_offset := 0
    array_layers := 1
    mip_levels := 1 }

/-- Example linear surface matching the spec scenario: row pitch 4096 bytes,
32-bit texel with `1x1x1` footprint, linear `1x1x1` logical tile. -/
def exSurfLinear : IslSurf :=
  { format := { bw := 1, bh := 1, bd := 1, bpb := 32 }
    yuv := false
    tiling := IslTiling.linear
    row_pitch_B := 4096
    size_B := 4194304
    miptail_start_level := 0
    tile_logical_extent_el := { width := 1, height := 1, depth := 1 }
    image_offset_B_tile_sa := fun _ _ _ => (0, 0, 0) }

/-- Example single-plane color format with 32-bit elements. -/
def exFormat32 : VkFormatInfo :=
  { hasDepth := false
    hasStencil := false
    anv_format := some { planes := [{ isl_format_supported := true, bpb := 32 }] }
  }

/-- Example single-plane format with 24-bit elements (not a power of two). -/
def exFormat24 : VkFormatInfo :=
  { hasDepth := false
    hasStencil := false
    anv_format := some { planes := [{ isl_format_supported := true, bpb := 24 }] }
  }

/-! Helper lemmas about the translator and the loop structure. -/

lemma vk_bind_op_eq (sparse : AnvSparseBindingData) (r : VkSparseMemoryBind) :
    (vk_bind_to_anv_vm_bind sparse r).op = AnvVmOp.bind := by
  cases h : r.memory <;> simp [vk_bind_to_anv_vm_bind, h]

lemma vk_bind_size_eq (sparse : AnvSparseBindingData) (r : VkSparseMemoryBind) :
    (vk_bind_to_anv_vm_bind sparse r).size = r.size := by
  cases h : r.memory <;> simp [vk_bind_to_anv_vm_bind, h]

lemma vk_bind_address_eq (sparse : AnvSparseBindingData)
    (r : VkSparseMemoryBind) :
    (vk_bind_to_anv_vm_bind sparse r).address =
      sparse.address + r.resourceOffset := by
  cases h : r.memory <;> simp [vk_bind_to_anv_vm_bind, h]

lemma vk_bind_bo_eq (sparse : AnvSparseBindingData) (r : VkSparseMemoryBind) :
    (vk_bind_to_anv_vm_bind sparse r).bo = r.memory := by
  cases h : r.memory <;> simp [vk_bind_to_anv_vm_bind, h]

lemma vk_bind_bo_offset_of_some (sparse : AnvSparseBindingData)
    (r : VkSparseMemoryBind) (m : AnvBo) (hm : r.memory = some m) :
    (vk_bind_to_anv_vm_bind sparse r).bo_offset = r.memoryOffset := by
  simp [vk_bind_to_anv_vm_bind, hm]

lemma iterCount_add_mul (a k s : Nat) (hs : 0 < s) :
    iterCount a (a + k * s) s = k := by
  unfold iterCount
  rw [if_neg (Nat.pos_iff_ne_zero.mp hs)]
  have h1 : a + k * s - a + s - 1 = (s - 1) + s * k := by ring_nf; omega
  rw [h1, Nat.add_mul_div_left _ _ hs, Nat.div_eq_of_lt (by omega)]
  omega

lemma iterUp_length (start stop step : Nat) :
    (iterUp start stop step).length = iterCount start stop step := by
  simp [iterUp]

lemma imageBindRows_map_size (ctx : ImageBindCtx) (so : Nat) :
    ∀ (mo : Nat) (ys : List Nat),
      (imageBindRows ctx so mo ys).map VkSparseMemoryBind.size =
        List.replicate ys.length ctx.line_bind_size
  | _, [] => rfl
  | mo, y :: rest => by
      simp [imageBindRows, List.replicate_succ,
            imageBindRows_map_size ctx so (mo + ctx.line_bind_size) rest]

lemma imageBindRows_map_memory (ctx : ImageBindCtx) (so : Nat) :
    ∀ (mo : Nat) (ys : List Nat),
      (imageBindRows ctx so mo ys).map VkSparseMemoryBind.memory =
        List.replicate ys.length ctx.bind.memory
  | _, [] => rfl
  | mo, y :: rest => by
      simp [imageBindRows, List.replicate_succ,
            imageBindRows_map_memory ctx so (mo + ctx.line_bind_size) rest]

lemma imageBindRows_map_memoryOffset (ctx : ImageBindCtx) (so : Nat) :
    ∀ (mo : Nat) (ys : List Nat),
      (imageBindRows ctx so mo ys).map VkSparseMemoryBind.memoryOffset =
        (List.range ys.length).map (fun i => mo + i * ctx.line_bind_size)
  | _, [] => rfl
  | mo, y :: rest => by
      have ih := imageBindRows_map_memoryOffset ctx so
        (mo + ctx.line_bind_size) rest
      simp only [imageBindRows, List.map_cons, ih, List.length_cons,
                 List.range_succ_eq_map, List.map_map]
      congr 1
      · omega
      · apply List.map_congr_left
        intro i _
        simp only [Function.comp_apply, Nat.succ_mul]
        omega

lemma imageBindSlices_map_size (ctx : ImageBindCtx) :
    ∀ (mo : Nat) (zs : List Nat),
      (imageBindSlices ctx mo zs).map VkSparseMemoryBind.size =
        List.replicate (zs.length * ctx.ys.length) ctx.line_bind_size
  | _, [] => by simp [imageBindSlices]
  | mo, z :: rest => by
      have ih := imageBindSlices_map_size ctx
        (mo + ctx.ys.length * ctx.line_bind_size) rest
      simp only [imageBindSlices, List.map_append,
                 imageBindRows_map_size, ih, List.length_cons]
      rw [← List.replicate_add]
      congr 1
      ring

lemma imageBindSlices_map_memory (ctx : ImageBindCtx) :
    ∀ (mo : Nat) (zs : List Nat),
      (imageBindSlices ctx mo zs).map VkSparseMemoryBind.memory =
        List.replicate (zs.length * ctx.ys.length) ctx.bind.memory
  | _, [] => by simp [imageBindSlices]
  | mo, z :: rest => by
      have ih := imageBindSlices_map_memory ctx
        (mo + ctx.ys.length * ctx.line_bind_size) rest
      simp only [imageBindSlices, List.map_append,
                 imageBindRows_map_memory, ih, List.length_cons]
      rw [← List.replicate_add]
      congr 1
      ring

lemma imageBindSlices_map_memoryOffset (ctx : ImageBindCtx) :
    ∀ (mo : Nat) (zs : List Nat),
      (imageBindSlices ctx mo zs).map VkSparseMemoryBind.memoryOffset =
        (List.range (zs.length * ctx.ys.length)).map
          (fun i => mo + i * ctx.line_bind_size)
  | _, [] => by simp [imageBindSlices]
  | mo, z :: rest => by
      have ih := imageBindSlices_map_memoryOffset ctx
        (mo + ctx.ys.length * ctx.line_bind_size) rest
      simp only [imageBindSlices, List.map_append,
                 imageBindRows_map_memoryOffset, ih, List.length_cons]
      have harith : (rest.length + 1) * ctx.ys.length =
          ctx.ys.length + rest.length * ctx.ys.length := by ring
      rw [harith, List.range_add, List.map_append, List.map_map]
      congr 1
      apply List.map_congr_left
      intro i _
      simp only [Function.comp_apply, Nat.add_mul]
      omega

lemma imageBindSlices_length (ctx : ImageBindCtx) (mo : Nat) (zs : List Nat) :
    (imageBindSlices ctx mo zs).length = zs.length * ctx.ys.length := by
  have h := imageBindSlices_map_size ctx mo zs
  have h2 := congrArg List.length h
  simpa using h2

lemma bw_dvd_block_shape_width (surf : IslSurf) :
    surf.format.bw ∣ (anv_sparse_calc_block_shape surf).width := by
  simp only [anv_sparse_calc_block_shape, vk_extent3d_el_to_px]
  split <;> exact dvd_mul_left _ _

lemma bh_dvd_block_shape_height (surf : IslSurf) :
    surf.format.bh ∣ (anv_sparse_calc_block_shape surf).height := by
  simp only [anv_sparse_calc_block_shape, vk_extent3d_el_to_px]
  split <;> exact dvd_mul_left _ _

lemma bd_dvd_block_shape_depth (surf : IslSurf) :
    surf.format.bd ∣ (anv_sparse_calc_block_shape surf).depth := by
  simp only [anv_sparse_calc_block_shape, vk_extent3d_el_to_px]
  split
  · exact dvd_rfl
  · exact dvd_mul_left _ _

lemma align_npot_of_dvd (x a : Nat) (ha : 0 < a) (h : a ∣ x) :
    align_npot x a = x := by
  obtain ⟨m, rfl⟩ := h
  unfold align_npot
  have h1 : a * m + a - 1 = (a - 1) + a * m := by omega
  rw [h1, Nat.add_mul_div_left _ _ ha, Nat.div_eq_of_lt (by omega)]
  ring_nf

lemma vmBindAll_first_failure (backend : AnvVmBind → Bool) :
    ∀ (pre : List AnvVmBind) (f : AnvVmBind) (rest : List AnvVmBind),
      (∀ b ∈ pre, backend b = true) → backend f = false →
      vmBindAll backend (pre ++ f :: rest) = (pre ++ [f], false)
  | [], f, rest => by
      intro _ hf
      simp [vmBindAll, hf]
  | b :: pre, f, rest => by
      intro hpre hf
      have hb : backend b = true := hpre b (by simp)
      have ih := vmBindAll_first_failure backend pre f rest
        (fun x hx => hpre x (by simp [hx])) hf
      simp [vmBindAll, hb, ih]

lemma vmBindAll_all_ok (backend : AnvVmBind → Bool) :
    ∀ (ops : List AnvVmBind), (∀ b ∈ ops, backend b = true) →
      vmBindAll backend ops = (ops, true)
  | [] => by intro _; rfl
  | b :: ops => by
      intro hok
      have hb : backend b = true := hok b (by simp)
      have ih := vmBindAll_all_ok backend ops (fun x hx => hok x (by simp [hx]))
      simp [vmBindAll, hb, ih]

lemma mem_opaque_binds_memory (ctx : ImageBindCtx) (b : VkSparseMemoryBind)
    (hb : b ∈ anv_sparse_bind_image_memory_opaque_binds ctx) :
    b.memory = ctx.bind.memory := by
  have h := imageBindSlices_map_memory ctx ctx.bind.memoryOffset ctx.zs
  have hmem : b.memory ∈
      (anv_sparse_bind_image_memory_opaque_binds ctx).map
        VkSparseMemoryBind.memory :=
    List.mem_map_of_mem _ hb
  rw [anv_sparse_bind_image_memory_opaque_binds] at hmem
  rw [h] at hmem
  exact List.eq_of_mem_replicate hmem

/-! Claim theorems. -/

/-- Claim C6: for a linear-tiled surface (whose ISL logical tile is one
element wide) with row pitch 4096 bytes, a 32-bit texel with 1x1x1 block
footprint, the Granularity Resolver returns a granularity of 1024x16x1
pixels: the element row length is the row pitch divided by the per-element
byte size (4096/4 = 1024) and the row count is the binding granularity
constant divided by the row byte size (65536/4096 = 16). -/
theorem c6_linear_granularity (surf : IslSurf)
    (hlin : surf.tiling = IslTiling.linear)
    (htilew : surf.tile_logical_extent_el.width = 1)
    (hpitch : surf.row_pitch_B = 4096)
    (hbpb : surf.format.bpb = 32)
    (hbw : surf.format.bw = 1) (hbh : surf.format.bh = 1)
    (hbd : surf.format.bd = 1) :
    anv_sparse_calc_block_shape surf =
      { width := 1024, height := 16, depth := 1 } := by
  simp [anv_sparse_calc_block_shape, hlin, htilew, hpitch, hbpb, hbw, hbh,
        hbd, ANV_SPARSE_BLOCK_SIZE]

/-- Witness for C6 at the fully concrete scenario surface. -/
theorem c6_linear_granularity_witness :
    (exSurfLinear.tiling = IslTiling.linear ∧
     exSurfLinear.tile_logical_extent_el.width = 1 ∧
     exSurfLinear.row_pitch_B = 4096 ∧
     exSurfLinear.format.bpb = 32 ∧
     exSurfLinear.format.bw = 1 ∧ exSurfLinear.format.bh = 1 ∧
     exSurfLinear.format.bd = 1) ∧
    anv_sparse_calc_block_shape exSurfLinear =
      { width := 1024, height := 16, depth := 1 } :=
  ⟨⟨rfl, rfl, rfl, rfl, rfl, rfl, rfl⟩,
   c6_linear_granularity exSurfLinear rfl rfl rfl rfl rfl rfl rfl⟩

/-- Claim C7: for every format the Validator accepts (bits per block element
in {8,16,32,64,128}), the returned sparse image format properties have
either granularity byte footprint equal to the binding granularity constant
or the single-miptail ("wrong block size") flag set. -/
theorem c7_block_size_or_single_miptail (verx10 aspect : Nat)
    (t : VkImageType) (surf : IslSurf)
    (haccepted : surf.format.bpb = 8 ∨ surf.format.bpb = 16 ∨
                 surf.format.bpb = 32 ∨ surf.format.bpb = 64 ∨
                 surf.format.bpb = 128) :
    (anv_sparse_calc_image_format_properties verx10 aspect t
        surf).imageGranularity.width *
      (anv_sparse_calc_image_format_properties verx10 aspect t
        surf).imageGranularity.height *
      (anv_sparse_calc_image_format_properties verx10 aspect t
        surf).imageGranularity.depth * (surf.format.bpb / 8) =
      ANV_SPARSE_BLOCK_SIZE ∨
    (anv_sparse_calc_image_format_properties verx10 aspect t
        surf).flagSingleMiptail = true := by
  by_cases h : (anv_sparse_calc_block_shape surf).width *
      (anv_sparse_calc_block_shape surf).height *
      (anv_sparse_calc_block_shape surf).depth * (surf.format.bpb / 8) =
      ANV_SPARSE_BLOCK_SIZE
  · left
    simpa [anv_sparse_calc_image_format_properties] using h
  · right
    simp [anv_sparse_calc_image_format_properties]
    exact h

/-- Witness for C7 at a concrete accepted format. -/
theorem c7_block_size_or_single_miptail_witness :
    (exSurfTile64.format.bpb = 8 ∨ exSurfTile64.format.bpb = 16 ∨
     exSurfTile64.format.bpb = 32 ∨ exSurfTile64.format.bpb = 64 ∨
     exSurfTile64.format.bpb = 128) ∧
    ((anv_sparse_calc_image_format_properties 125 1 VkImageType.t2D
        exSurfTile64).imageGranularity.width *
      (anv_sparse_calc_image_format_properties 125 1 VkImageType.t2D
        exSurfTile64).imageGranularity.height *
      (anv_sparse_calc_image_format_properties 125 1 VkImageType.t2D
        exSurfTile64).imageGranularity.depth * (exSurfTile64.format.bpb / 8) =
      ANV_SPARSE_BLOCK_SIZE ∨
    (anv_sparse_calc_image_format_properties 125 1 VkImageType.t2D
        exSurfTile64).flagSingleMiptail = true) :=
  ⟨Or.inl rfl,
   c7_block_size_or_single_miptail 125 1 VkImageType.t2D exSurfTile64
     (Or.inl rfl)⟩

/-- Claim C10: `anv_free_sparse_bindings` on a zero-address binding returns
success and issues no backend operation; when the backend rejects the unbind
of a non-trivial binding it returns `VK_ERROR_UNKNOWN`, calls `anv_vma_free`
on nothing (the VA range stays reserved), and leaves the binding data
unchanged. -/
theorem c10_free_sparse_bindings (backend : AnvVmBind → Bool)
    (sparse : AnvSparseBindingData) :
    (sparse.address = 0 →
      anv_free_sparse_bindings backend sparse =
        (VkResult.success, [], [], sparse)) ∧
    (sparse.address ≠ 0 →
      backend { bo := none, address := sparse.address, bo_offset := 0,
                size := sparse.size, op := AnvVmOp.unbind } = false →
      anv_free_sparse_bindings backend sparse =
        (VkResult.errorUnknown,
         [{ bo := none, address := sparse.address, bo_offset := 0,
            size := sparse.size, op := AnvVmOp.unbind }], [], sparse)) := by
  constructor
  · intro h
    simp [anv_free_sparse_bindings, h]
  · intro h hb
    simp [anv_free_sparse_bindings, h, hb]

/-- Witness for C10: a failing backend on a reserved binding, and the
zero-address case. -/
theorem c10_free_sparse_bindings_witness :
    anv_free_sparse_bindings (fun _ => false)
        { address := 0, size := 65536 } =
      (VkResult.success, [], [], { address := 0, size := 65536 }) ∧
    anv_free_sparse_bindings (fun _ => false)
        { address := 65536, size := 65536 } =
      (VkResult.errorUnknown,
       [{ bo := none, address := 65536, bo_offset := 0, size := 65536,
          op := AnvVmOp.unbind }], [],
       { address := 65536, size := 65536 }) :=
  ⟨(c10_free_sparse_bindings (fun _ => false) _).1 rfl,
   (c10_free_sparse_bindings (fun _ => false) _).2 (by decide) rfl⟩

/-- Claim C3: when the per-tile byte size equals the binding granularity
constant, the layer-1 offset is tile-aligned with zero intra-tile offset, and
the tiling class is sparse-friendly, the Miptail Calculator returns either
no-miptail (first level = mip count, size/offset/stride all 0) or a partial
miptail whose size is exactly the binding granularity constant — never
whole-resource-is-miptail. -/
theorem c3_miptail_no_everything (image : AnvImagePlane)
    (htile : image.surf.tile_logical_extent_el.width *
               (image.surf.format.bpb / 8) *
               image.surf.tile_logical_extent_el.height *
               image.surf.tile_logical_extent_el.depth =
             ANV_SPARSE_BLOCK_SIZE)
    (hfriendly : isl_tiling_supports_standard_block_shapes
                   image.surf.tiling = true)
    (hlayer1 : image.array_layers ≠ 1 →
      (image.surf.image_offset_B_tile_sa 0 1 0).2.1 = 0 ∧
      (image.surf.image_offset_B_tile_sa 0 1 0).2.2 = 0 ∧
      (image.surf.image_offset_B_tile_sa 0 1 0).1 % ANV_SPARSE_BLOCK_SIZE = 0) :
    anv_sparse_calc_miptail_properties image =
      { imageMipTailFirstLod := image.mip_levels, imageMipTailSize := 0,
        imageMipTailOffset := 0, imageMipTailStride := 0 } ∨
    (anv_sparse_calc_miptail_properties image).imageMipTailSize =
      ANV_SPARSE_BLOCK_SIZE := by
  by_cases hl : image.array_layers = 1
  · by_cases hm : image.mip_levels ≤ image.surf.miptail_start_level
    · left
      simp [anv_sparse_calc_miptail_properties, htile, hl, hfriendly, hm]
    · right
      simp [anv_sparse_calc_miptail_properties, htile, hl, hfriendly, hm]
  · obtain ⟨hx, hy, _⟩ := hlayer1 hl
    by_cases hm : image.mip_levels ≤ image.surf.miptail_start_level
    · left
      simp [anv_sparse_calc_miptail_properties, htile, hl, hx, hy, hfriendly,
            hm]
    · right
      simp [anv_sparse_calc_miptail_properties, htile, hl, hx, hy, hfriendly,
            hm]

/-- Witness for C3 at a concrete single-layer Tile64 image (one mip level,
miptail start level 1: the no-miptail outcome). -/
theorem c3_miptail_no_everything_witness :
    (exMiptailImage.surf.tile_logical_extent_el.width *
       (exMiptailImage.surf.format.bpb / 8) *
       exMiptailImage.surf.tile_logical_extent_el.height *
       exMiptailImage.surf.tile_logical_extent_el.depth =
     ANV_SPARSE_BLOCK_SIZE) ∧
    isl_tiling_supports_standard_block_shapes exMiptailImage.surf.tiling =
      true ∧
    (anv_sparse_calc_miptail_properties exMiptailImage =
       { imageMipTailFirstLod := exMiptailImage.mip_levels,
         imageMipTailSize := 0, imageMipTailOffset := 0,
         imageMipTailStride := 0 } ∨
     (anv_sparse_calc_miptail_properties exMiptailImage).imageMipTailSize =
       ANV_SPARSE_BLOCK_SIZE) :=
  ⟨by decide, by decide,
   c3_miptail_no_everything exMiptailImage (by decide) (by decide)
     (fun h => absurd rfl h)⟩

/-- Claim C9: the Validator accepts everything without the residency flag;
with it, the checks fire in order: linear tiling is rejected as
format-not-supported, sample counts other than one as feature-not-present,
depth/stencil formats of 3-D type on generation ≥ 125 (and of any non-2-D
type on older generations) as format-not-supported, and any plane whose bits
per block element lies outside {8,16,32,64,128} as format-not-supported. -/
theorem c9_check_support_rules (verx10 : Nat) (residency : Bool)
    (tiling : VkImageTiling) (samples : Nat) (type : VkImageType)
    (fmt : VkFormatInfo) :
    (residency = false →
      anv_sparse_image_check_support verx10 residency tiling samples type fmt =
        VkResult.success) ∧
    (residency = true → tiling = VkImageTiling.linear →
      anv_sparse_image_check_support verx10 residency tiling samples type fmt =
        VkResult.errorFormatNotSupported) ∧
    (residency = true → tiling ≠ VkImageTiling.linear → samples ≠ 1 →
      anv_sparse_image_check_support verx10 residency tiling samples type fmt =
        VkResult.errorFeatureNotPresent) ∧
    (residency = true → tiling ≠ VkImageTiling.linear → samples = 1 →
      (fmt.hasDepth || fmt.hasStencil) = true → 125 ≤ verx10 →
      type = VkImageType.t3D →
      anv_sparse_image_check_support verx10 residency tiling samples type fmt =
        VkResult.errorFormatNotSupported) ∧
    (residency = true → tiling ≠ VkImageTiling.linear → samples = 1 →
      (fmt.hasDepth || fmt.hasStencil) = true → verx10 < 125 →
      type ≠ VkImageType.t2D →
      anv_sparse_image_check_support verx10 residency tiling samples type fmt =
        VkResult.errorFormatNotSupported) ∧
    (residency = true → tiling ≠ VkImageTiling.linear → samples = 1 →
      ∀ af, fmt.anv_format = some af →
      ∀ p ∈ af.planes, (p.bpb ≠ 8 ∧ p.bpb ≠ 16 ∧ p.bpb ≠ 32 ∧ p.bpb ≠ 64 ∧
        p.bpb ≠ 128) →
      anv_sparse_image_check_support verx10 residency tiling samples type fmt =
        VkResult.errorFormatNotSupported) := by
  refine ⟨?_, ?_, ?_, ?_, ?_, ?_⟩
  · intro h
    simp [anv_sparse_image_check_support, h]
  · intro h hlin
    simp [anv_sparse_image_check_support, h, hlin]
  · intro h hlin hs
    simp [anv_sparse_image_check_support, h, hlin, hs]
  · intro h hlin hs hds h125 ht
    simp [anv_sparse_image_check_support, h, hlin, hs, hds, h125, ht]
  · intro h hlin hs hds h125 ht
    simp [anv_sparse_image_check_support, h, hlin, hs, hds,
          Nat.not_le.mpr h125, ht]
  · intro h hlin hs af haf p hp hbad
    have hgen : ∀ l : List AnvPlaneFormat, p ∈ l →
        anv_sparse_check_format_planes l =
          VkResult.errorFormatNotSupported := by
      intro l hl
      induction l with
      | nil => cases hl
      | cons q rest ih =>
        rcases List.mem_cons.mp hl with hq | hq
        · subst hq
          by_cases hsup : p.isl_format_supported = false
          · simp [anv_sparse_check_format_planes, hsup]
          · simp [anv_sparse_check_format_planes, hsup, hbad]
        · by_cases hsup : q.isl_format_supported = false
          · simp [anv_sparse_check_format_planes, hsup]
          · by_cases hqbad : q.bpb ≠ 8 ∧ q.bpb ≠ 16 ∧ q.bpb ≠ 32 ∧
                q.bpb ≠ 64 ∧ q.bpb ≠ 128
            · simp [anv_sparse_check_format_planes, hsup, hqbad]
            · simp [anv_sparse_check_format_planes, hsup, hqbad, ih hq]
    have hplanes : anv_sparse_check_format_planes af.planes =
        VkResult.errorFormatNotSupported := hgen af.planes hp
    by_cases hds : (fmt.hasDepth || fmt.hasStencil) = true ∧
        (if 125 ≤ verx10 then type = VkImageType.t3D
         else type ≠ VkImageType.t2D)
    · simp [anv_sparse_image_check_support, h, hlin, hs, hds]
    · simp [anv_sparse_image_check_support, h, hlin, hs, hds, haf, hplanes]

/-- Witness for C9: three concrete rule firings. -/
theorem c9_check_support_rules_witness :
    anv_sparse_image_check_support 125 false VkImageTiling.linear 4
        VkImageType.t2D exFormat24 = VkResult.success ∧
    anv_sparse_image_check_support 125 true VkImageTiling.linear 1
        VkImageType.t2D exFormat32 = VkResult.errorFormatNotSupported ∧
    anv_sparse_image_check_support 125 true VkImageTiling.optimal 1
        VkImageType.t2D exFormat24 = VkResult.errorFormatNotSupported :=
  ⟨(c9_check_support_rules 125 false VkImageTiling.linear 4 VkImageType.t2D
      exFormat24).1 rfl,
   (c9_check_support_rules 125 true VkImageTiling.linear 1 VkImageType.t2D
      exFormat32).2.1 rfl rfl,
   (c9_check_support_rules 125 true VkImageTiling.optimal 1 VkImageType.t2D
      exFormat24).2.2.2.2.2 rfl (by decide) rfl
     { planes := [{ isl_format_supported := true, bpb := 24 }] } rfl
     { isl_format_supported := true, bpb := 24 } (by decide) (by decide)⟩

/-- Counterexample to claim C2: an opaque bind request of size 4096 passes
every assertion of the translator, yet the produced operation's size is not
a multiple of the binding granularity constant (65536). -/
theorem c2_counterexample_small_bind :
    vk_bind_to_anv_vm_bind_asserts exSparse smallOpaqueReq = true ∧
    ¬ ((vk_bind_to_anv_vm_bind exSparse smallOpaqueReq).size %
         ANV_SPARSE_BLOCK_SIZE = 0) := by
  decide

/-- Claim C2 as amended: under the translator's assertions, a produced
operation with a non-null backing object satisfies
`bo_offset + size ≤ bo.size`; and its address and size are multiples of the
binding granularity constant whenever the VA base and the request's
`resourceOffset` and `size` already are (as valid sparse API usage
guarantees) — the translator itself does not enforce that alignment. -/
theorem c2_amended_translator_invariant (sparse : AnvSparseBindingData)
    (r : VkSparseMemoryBind)
    (hassert : vk_bind_to_anv_vm_bind_asserts sparse r = true) :
    (∀ m, (vk_bind_to_anv_vm_bind sparse r).bo = some m →
      (vk_bind_to_anv_vm_bind sparse r).bo_offset +
        (vk_bind_to_anv_vm_bind sparse r).size ≤ m.size) ∧
    (ANV_SPARSE_BLOCK_SIZE ∣ sparse.address →
     ANV_SPARSE_BLOCK_SIZE ∣ r.resourceOffset →
     ANV_SPARSE_BLOCK_SIZE ∣ r.size →
     ANV_SPARSE_BLOCK_SIZE ∣ (vk_bind_to_anv_vm_bind sparse r).address ∧
     ANV_SPARSE_BLOCK_SIZE ∣ (vk_bind_to_anv_vm_bind sparse r).size) := by
  constructor
  · intro m hm
    cases h : r.memory with
    | none =>
        rw [vk_bind_bo_eq, h] at hm
        cases hm
    | some mem =>
        rw [vk_bind_bo_eq, h] at hm
        cases hm
        rw [vk_bind_bo_offset_of_some sparse r m h, vk_bind_size_eq]
        simp only [vk_bind_to_anv_vm_bind_asserts, h, Bool.and_eq_true,
                   decide_eq_true_eq] at hassert
        exact hassert.2
  · intro ha hro hsz
    rw [vk_bind_address_eq, vk_bind_size_eq]
    exact ⟨Nat.dvd_add ha hro, hsz⟩

/-- Witness for C2's amended theorem at a granularity-aligned request. -/
theorem c2_amended_translator_invariant_witness :
    vk_bind_to_anv_vm_bind_asserts exSparse alignedOpaqueReq = true ∧
    (ANV_SPARSE_BLOCK_SIZE ∣
       (vk_bind_to_anv_vm_bind exSparse alignedOpaqueReq).address ∧
     ANV_SPARSE_BLOCK_SIZE ∣
       (vk_bind_to_anv_vm_bind exSparse alignedOpaqueReq).size) :=
  ⟨by decide,
   (c2_amended_translator_invariant exSparse alignedOpaqueReq (by decide)).2
     (by decide) (by decide) (by decide)⟩

lemma imageBindRows_unbindCtx (ctx : ImageBindCtx) (so : Nat) :
    ∀ (mo : Nat) (ys : List Nat),
      imageBindRows (unbindCtx ctx) so mo ys =
        (imageBindRows ctx so mo ys).map
          (fun b => { b with memory := none }) := by
  intro mo ys
  induction ys generalizing mo with
  | nil => rfl
  | cons y rest ih =>
    simp only [imageBindRows, List.map_cons]
    exact congrArg (List.cons _) (ih (mo + ctx.line_bind_size))

lemma imageBindSlices_unbindCtx (ctx : ImageBindCtx) :
    ∀ (mo : Nat) (zs : List Nat),
      imageBindSlices (unbindCtx ctx) mo zs =
        (imageBindSlices ctx mo zs).map
          (fun b => { b with memory := none }) := by
  intro mo zs
  induction zs generalizing mo with
  | nil => rfl
  | cons z rest ih =>
    show imageBindRows (unbindCtx ctx)
        ((ctx.surf.image_offset_B_tile_sa ctx.bind.mipLevel
            ctx.bind.arrayLayer z).1) mo ctx.ys ++
      imageBindSlices (unbindCtx ctx)
        (mo + ctx.ys.length * ctx.line_bind_size) rest = _
    rw [imageBindRows_unbindCtx ctx _ mo ctx.ys,
        ih (mo + ctx.ys.length * ctx.line_bind_size)]
    show _ = (imageBindRows ctx _ mo ctx.ys ++
      imageBindSlices ctx (mo + ctx.ys.length * ctx.line_bind_size) rest).map
        (fun b => { b with memory := none })
    rw [List.map_append]

/-- Counterexample to claim C8: binding then unbinding the same opaque
request yields the same address and size, but the unbind operation's kind is
NOT reversed — both operations carry the BIND kind (the translator expresses
an unbind as a null bind; the UNBIND kind is only used when freeing a whole
VA range). -/
theorem c8_counterexample_kind_not_reversed :
    (vk_bind_to_anv_vm_bind exSparse
        (unbindRequestOpaque alignedOpaqueReq)).address =
      (vk_bind_to_anv_vm_bind exSparse alignedOpaqueReq).address ∧
    (vk_bind_to_anv_vm_bind exSparse
        (unbindRequestOpaque alignedOpaqueReq)).size =
      (vk_bind_to_anv_vm_bind exSparse alignedOpaqueReq).size ∧
    (vk_bind_to_anv_vm_bind exSparse alignedOpaqueReq).op = AnvVmOp.bind ∧
    ¬ ((vk_bind_to_anv_vm_bind exSparse
          (unbindRequestOpaque alignedOpaqueReq)).op = AnvVmOp.unbind) := by
  decide

/-- Claim C8 as amended: binding then immediately unbinding the same request
(opaque or image path) produces the same address/size sequence, but the
operation kind is unchanged (always BIND): the unbind operations differ only
in carrying a null backing object with zero backing offset. -/
theorem c8_amended_unbind_sequence :
    (∀ (sparse : AnvSparseBindingData) (r : VkSparseMemoryBind),
      vk_bind_to_anv_vm_bind sparse (unbindRequestOpaque r) =
        { vk_bind_to_anv_vm_bind sparse r with bo := none, bo_offset := 0 }) ∧
    (∀ (sparse : AnvSparseBindingData) (r : VkSparseMemoryBind),
      (vk_bind_to_anv_vm_bind sparse r).op = AnvVmOp.bind) ∧
    (∀ (sparse : AnvSparseBindingData) (ctx : ImageBindCtx),
      anv_sparse_bind_image_memory_ops sparse (unbindCtx ctx) =
        (anv_sparse_bind_image_memory_ops sparse ctx).map
          (fun b => { b with bo := none, bo_offset := 0 })) := by
  have hnullbind : ∀ (sparse : AnvSparseBindingData) (r : VkSparseMemoryBind),
      vk_bind_to_anv_vm_bind sparse (unbindRequestOpaque r) =
        { vk_bind_to_anv_vm_bind sparse r with bo := none, bo_offset := 0 } := by
    intro sparse r
    cases h : r.memory <;>
      simp [vk_bind_to_anv_vm_bind, unbindRequestOpaque, h]
  refine ⟨hnullbind, vk_bind_op_eq, ?_⟩
  intro sparse ctx
  show (anv_sparse_bind_image_memory_opaque_binds (unbindCtx ctx)).map
      (vk_bind_to_anv_vm_bind sparse) = _
  have hbinds : anv_sparse_bind_image_memory_opaque_binds (unbindCtx ctx) =
      (anv_sparse_bind_image_memory_opaque_binds ctx).map
        (fun b => { b with memory := none }) :=
    imageBindSlices_unbindCtx ctx ctx.bind.memoryOffset ctx.zs
  rw [hbinds, List.map_map, anv_sparse_bind_image_memory_ops, List.map_map]
  apply List.map_congr_left
  intro b _
  exact hnullbind sparse b

lemma ops_all_bind_kind (sparse : AnvSparseBindingData) (ctx : ImageBindCtx) :
    ∀ b ∈ anv_sparse_bind_image_memory_ops sparse ctx,
      b.op = AnvVmOp.bind := by
  intro b hb
  rw [anv_sparse_bind_image_memory_ops] at hb
  obtain ⟨a, _, rfl⟩ := List.mem_map.mp hb
  exact vk_bind_op_eq sparse a

/-- Claim C4: when the backend reports failure for an operation of the image
bind sequence, `anv_sparse_bind_image_memory` submits nothing further,
returns `VK_ERROR_OUT_OF_DEVICE_MEMORY`, and the operations submitted before
the failing one are not undone: the submitted trace is exactly the
successful prefix followed by the failing operation, and contains no UNBIND
operation. -/
theorem c4_abort_on_backend_failure (backend : AnvVmBind → Bool)
    (sparse : AnvSparseBindingData) (ctx : ImageBindCtx)
    (pre : List AnvVmBind) (f : AnvVmBind) (rest : List AnvVmBind)
    (hops : anv_sparse_bind_image_memory_ops sparse ctx = pre ++ f :: rest)
    (hpre : ∀ b ∈ pre, backend b = true)
    (hf : backend f = false) :
    anv_sparse_bind_image_memory backend sparse ctx =
      (pre ++ [f], VkResult.errorOutOfDeviceMemory) ∧
    ∀ b ∈ pre ++ [f], b.op = AnvVmOp.bind := by
  constructor
  · have h := vmBindAll_first_failure backend pre f rest hpre hf
    simp [anv_sparse_bind_image_memory, hops, h]
  · intro b hb
    apply ops_all_bind_kind sparse ctx
    rw [hops]
    rcases List.mem_append.mp hb with h | h
    · exact List.mem_append.mpr (Or.inl h)
    · simp only [List.mem_singleton] at h
      subst h
      exact List.mem_append.mpr (Or.inr (List.mem_cons_self _ _))

/-- Witness for C4: a backend that accepts only the first of the two
operations of `exCtx`; the call stops after the failing second operation. -/
theorem c4_abort_on_backend_failure_witness :
    anv_sparse_bind_image_memory_ops exSparse exCtx = [exOp0] ++ exOp1 :: [] ∧
    anv_sparse_bind_image_memory (fun b => decide (b.bo_offset = 0)) exSparse
        exCtx = ([exOp0] ++ [exOp1], VkResult.errorOutOfDeviceMemory) := by
  refine ⟨by decide, ?_⟩
  exact (c4_abort_on_backend_failure (fun b => decide (b.bo_offset = 0))
    exSparse exCtx [exOp0] exOp1 [] (by decide) (by decide) (by decide)).1

/-- Claim C5: in the image bind path the i-th emitted operation (row-major
across depth slices, from 0) carries backing offset
`memoryOffset + i * line_bind_size`: successive rows bind successive
contiguous ranges of the backing memory object. -/
theorem c5_row_memory_offsets (sparse : AnvSparseBindingData)
    (ctx : ImageBindCtx) (m : AnvBo) (hmem : ctx.bind.memory = some m) :
    (anv_sparse_bind_image_memory_ops sparse ctx).map AnvVmBind.bo_offset =
      (List.range
        (anv_sparse_bind_image_memory_ops sparse ctx).length).map
        (fun i => ctx.bind.memoryOffset + i * ctx.line_bind_size) := by
  rw [anv_sparse_bind_image_memory_ops, List.map_map, List.length_map]
  have hpt : ∀ b ∈ anv_sparse_bind_image_memory_opaque_binds ctx,
      (AnvVmBind.bo_offset ∘ vk_bind_to_anv_vm_bind sparse) b =
        VkSparseMemoryBind.memoryOffset b := by
    intro b hb
    have hbm : b.memory = some m := by
      rw [mem_opaque_binds_memory ctx b hb, hmem]
    simp only [Function.comp_apply]
    exact vk_bind_bo_offset_of_some sparse b m hbm
  rw [List.map_congr_left hpt]
  rw [show anv_sparse_bind_image_memory_opaque_binds ctx =
        imageBindSlices ctx ctx.bind.memoryOffset ctx.zs from rfl]
  rw [imageBindSlices_map_memoryOffset, imageBindSlices_length]

/-- Witness for C5 at the concrete two-row context `exCtx`. -/
theorem c5_row_memory_offsets_witness :
    exCtx.bind.memory = some exBo ∧
    (anv_sparse_bind_image_memory_ops exSparse exCtx).map AnvVmBind.bo_offset =
      (List.range
        (anv_sparse_bind_image_memory_ops exSparse exCtx).length).map
        (fun i => exCtx.bind.memoryOffset + i * exCtx.line_bind_size) :=
  ⟨rfl, c5_row_memory_offsets exSparse exCtx exBo rfl⟩

/-- Claim C1: for a request fully covering one mip level's subresource
(origin offset, extent a whole number of granularity blocks on every axis),
the image bind path emits exactly (block rows) x (depth slices) operations,
each of size `line_bind_size`, and the emitted sizes sum to the element-space
coverage of the subresource times bytes-per-element. -/
theorem c1_full_cover_operations (sparse : AnvSparseBindingData)
    (ctx : ImageBindCtx)
    (hbw : 0 < ctx.layout.bw) (hbh : 0 < ctx.layout.bh)
    (hbd : 0 < ctx.layout.bd)
    (hsw : 0 < ctx.block_shape_el.width)
    (hsh : 0 < ctx.block_shape_el.height)
    (hsd : 0 < ctx.block_shape_el.depth)
    (hoff : ctx.bind.offset = { x := 0, y := 0, z := 0 })
    (hW : ctx.block_shape_px.width ∣ ctx.bind.extent.width)
    (hH : ctx.block_shape_px.height ∣ ctx.bind.extent.height)
    (hD : ctx.block_shape_px.depth ∣ ctx.bind.extent.depth) :
    (anv_sparse_bind_image_memory_ops sparse ctx).length =
      (ctx.bind.extent.height / ctx.block_shape_px.height) *
      (ctx.bind.extent.depth / ctx.block_shape_px.depth) ∧
    (anv_sparse_bind_image_memory_ops sparse ctx).map AnvVmBind.size =
      List.replicate
        ((ctx.bind.extent.height / ctx.block_shape_px.height) *
         (ctx.bind.extent.depth / ctx.block_shape_px.depth))
        ctx.line_bind_size ∧
    ((anv_sparse_bind_image_memory_ops sparse ctx).map AnvVmBind.size).sum =
      (ctx.bind.extent.width / ctx.layout.bw) *
      (ctx.bind.extent.height / ctx.layout.bh) *
      (ctx.bind.extent.depth / ctx.layout.bd) * (ctx.layout.bpb / 8) := by
  have hpxw : ctx.block_shape_el.width * ctx.layout.bw =
      ctx.block_shape_px.width :=
    Nat.div_mul_cancel (bw_dvd_block_shape_width ctx.surf)
  have hpxh : ctx.block_shape_el.height * ctx.layout.bh =
      ctx.block_shape_px.height :=
    Nat.div_mul_cancel (bh_dvd_block_shape_height ctx.surf)
  have hpxd : ctx.block_shape_el.depth * ctx.layout.bd =
      ctx.block_shape_px.depth :=
    Nat.div_mul_cancel (bd_dvd_block_shape_depth ctx.surf)
  have hpxw_pos : 0 < ctx.block_shape_px.width := by
    rw [← hpxw]; exact Nat.mul_pos hsw hbw
  have hpxh_pos : 0 < ctx.block_shape_px.height := by
    rw [← hpxh]; exact Nat.mul_pos hsh hbh
  have hpxd_pos : 0 < ctx.block_shape_px.depth := by
    rw [← hpxd]; exact Nat.mul_pos hsd hbd
  obtain ⟨mx, hmx⟩ := hW
  obtain ⟨my, hmy⟩ := hH
  obtain ⟨mz, hmz⟩ := hD
  have hcovW : ctx.bind.extent.width / ctx.layout.bw =
      ctx.block_shape_el.width * mx := by
    rw [hmx, ← hpxw]
    have h : ctx.block_shape_el.width * ctx.layout.bw * mx =
        ctx.block_shape_el.width * mx * ctx.layout.bw := by ring
    rw [h, Nat.mul_div_cancel _ hbw]
  have hcovH : ctx.bind.extent.height / ctx.layout.bh =
      ctx.block_shape_el.height * my := by
    rw [hmy, ← hpxh]
    have h : ctx.block_shape_el.height * ctx.layout.bh * my =
        ctx.block_shape_el.height * my * ctx.layout.bh := by ring
    rw [h, Nat.mul_div_cancel _ hbh]
  have hcovD : ctx.bind.extent.depth / ctx.layout.bd =
      ctx.block_shape_el.depth * mz := by
    rw [hmz, ← hpxd]
    have h : ctx.block_shape_el.depth * ctx.layout.bd * mz =
        ctx.block_shape_el.depth * mz * ctx.layout.bd := by ring
    rw [h, Nat.mul_div_cancel _ hbd]
  have hextW : ctx.bind_extent_el.width = ctx.block_shape_el.width * mx := by
    show align_npot ctx.bind.extent.width ctx.block_shape_px.width /
        ctx.layout.bw = _
    rw [align_npot_of_dvd _ _ hpxw_pos ⟨mx, hmx⟩]
    exact hcovW
  have hextH : ctx.bind_extent_el.height =
      ctx.block_shape_el.height * my := by
    show align_npot ctx.bind.extent.height ctx.block_shape_px.height /
        ctx.layout.bh = _
    rw [align_npot_of_dvd _ _ hpxh_pos ⟨my, hmy⟩]
    exact hcovH
  have hextD : ctx.bind_extent_el.depth = ctx.block_shape_el.depth * mz := by
    show align_npot ctx.bind.extent.depth ctx.block_shape_px.depth /
        ctx.layout.bd = _
    rw [align_npot_of_dvd _ _ hpxd_pos ⟨mz, hmz⟩]
    exact hcovD
  have hys_len : ctx.ys.length = my := by
    rw [ImageBindCtx.ys, iterUp_length, hextH, Nat.mul_comm]
    exact iterCount_add_mul _ my _ hsh
  have hzs_len : ctx.zs.length = mz := by
    rw [ImageBindCtx.zs, iterUp_length, hextD, Nat.mul_comm]
    exact iterCount_add_mul _ mz _ hsd
  have hrows : ctx.bind.extent.height / ctx.block_shape_px.height = my := by
    rw [hmy]; exact Nat.mul_div_cancel_left my hpxh_pos
  have hslices : ctx.bind.extent.depth / ctx.block_shape_px.depth = mz := by
    rw [hmz]; exact Nat.mul_div_cancel_left mz hpxd_pos
  have hops_len : (anv_sparse_bind_image_memory_ops sparse ctx).length =
      mz * my := by
    rw [anv_sparse_bind_image_memory_ops, List.length_map,
        show anv_sparse_bind_image_memory_opaque_binds ctx =
          imageBindSlices ctx ctx.bind.memoryOffset ctx.zs from rfl,
        imageBindSlices_length, hys_len, hzs_len]
  have hmapsize : (anv_sparse_bind_image_memory_ops sparse ctx).map
      AnvVmBind.size =
      List.replicate (mz * my) ctx.line_bind_size := by
    rw [anv_sparse_bind_image_memory_ops, List.map_map]
    have hpt : ∀ b ∈ anv_sparse_bind_image_memory_opaque_binds ctx,
        (AnvVmBind.size ∘ vk_bind_to_anv_vm_bind sparse) b =
          VkSparseMemoryBind.size b := by
      intro b _
      simp only [Function.comp_apply]
      exact vk_bind_size_eq sparse b
    rw [List.map_congr_left hpt,
        show anv_sparse_bind_image_memory_opaque_binds ctx =
          imageBindSlices ctx ctx.bind.memoryOffset ctx.zs from rfl,
        imageBindSlices_map_size, hys_len, hzs_len]
  have hline : ctx.line_bind_size = mx * ctx.block_size_B := by
    show ctx.bind_extent_el.width / ctx.block_shape_el.width *
        ctx.block_size_B = _
    rw [hextW, Nat.mul_div_cancel_left mx hsw]
  refine ⟨?_, ?_, ?_⟩
  · rw [hops_len, hrows, hslices, Nat.mul_comm]
  · rw [hmapsize, hrows, hslices, Nat.mul_comm]
  · rw [hmapsize, List.sum_replicate, smul_eq_mul, hline, hcovW, hcovH,
        hcovD, ImageBindCtx.block_size_B]
    ring

/-- Witness for C1 at the concrete full-cover request `exCtx` (512x512x1 on
a 256x256x1-px block shape: 2 rows x 1 slice, sizes 131072, sum 262144). -/
theorem c1_full_cover_operations_witness :
    (0 < exCtx.layout.bw ∧ 0 < exCtx.layout.bh ∧ 0 < exCtx.layout.bd ∧
     0 < exCtx.block_shape_el.width ∧ 0 < exCtx.block_shape_el.height ∧
     0 < exCtx.block_shape_el.depth ∧
     exCtx.bind.offset = { x := 0, y := 0, z := 0 } ∧
     exCtx.block_shape_px.width ∣ exCtx.bind.extent.width ∧
     exCtx.block_shape_px.height ∣ exCtx.bind.extent.height ∧
     exCtx.block_shape_px.depth ∣ exCtx.bind.extent.depth) ∧
    ((anv_sparse_bind_image_memory_ops exSparse exCtx).length =
      (exCtx.bind.extent.height / exCtx.block_shape_px.height) *
      (exCtx.bind.extent.depth / exCtx.block_shape_px.depth) ∧
    (anv_sparse_bind_image_memory_ops exSparse exCtx).map AnvVmBind.size =
      List.replicate
        ((exCtx.bind.extent.height / exCtx.block_shape_px.height) *
         (exCtx.bind.extent.depth / exCtx.block_shape_px.depth))
        exCtx.line_bind_size ∧
    ((anv_sparse_bind_image_memory_ops exSparse exCtx).map
        AnvVmBind.size).sum =
      (exCtx.bind.extent.width / exCtx.layout.bw) *
      (exCtx.bind.extent.height / exCtx.layout.bh) *
      (exCtx.bind.extent.depth / exCtx.layout.bd) *
      (exCtx.layout.bpb / 8)) :=
  ⟨⟨by decide, by decide, by decide, by decide, by decide, by decide,
    by decide, by decide, by decide, by decide⟩,
   c1_full_cover_operations exSparse exCtx (by decide) (by decide)
     (by decide) (by decide) (by decide) (by decide) (by decide) (by decide)
     (by decide) (by decide)⟩

/-! Sanity lemmas: `iterUp` has exactly the step semantics of the C loop
`for (v = start; v < stop; v += step)` for positive `step`. -/

lemma iterUp_stop (start stop step : Nat) (h : stop ≤ start) :
    iterUp start stop step = [] := by
  unfold iterUp iterCount
  have hz : stop - start = 0 := by omega
  by_cases hs : step = 0
  · simp [hs]
  · rw [if_neg hs, hz, Nat.zero_add, Nat.div_eq_of_lt (by omega)]
    rfl

lemma iterUp_step (start stop step : Nat) (hs : 0 < step)
    (h : start < stop) :
    iterUp start stop step = start :: iterUp (start + step) stop step := by
  have hcount : iterCount start stop step =
      iterCount (start + step) stop step + 1 := by
    unfold iterCount
    rw [if_neg (by omega), if_neg (by omega)]
    rcases le_or_lt (stop - start) step with hle | hlt
    · have h1 : stop - start + step - 1 = (stop - start - 1) + step := by
        omega
      rw [h1, Nat.add_div_right _ hs, Nat.div_eq_of_lt (by omega),
          Nat.div_eq_of_lt (by omega)]
    · have h1 : stop - start + step - 1 = (stop - start - 1) + step := by
        omega
      have h2 : stop - (start + step) + step - 1 = stop - start - 1 := by
        omega
      rw [h1, Nat.add_div_right _ hs, h2]
  unfold iterUp
  rw [hcount, List.range_succ_eq_map, List.map_cons, List.map_map]
  congr 1
  · omega
  · apply List.map_congr_left
    intro i _
    simp only [Function.comp_apply, Nat.succ_mul]
    omega
